import Mathlib

/-!
Shallow embedding of `Terrain3DStorage` (src/terrain_storage.cpp /
terrain_storage.h): the region spatial index, the dirty-tracked generated
resource cache, the region-map encoder, and the layer registry.

Modelling conventions:
* Godot `float` coordinates are modelled as exact rationals `ℚ`; C++ `int`
  as `Int`; `TypedArray<T>` as `List`.
* `RID` handles are opaque; only validity (`rid_valid`) is tracked, since the
  code only branches on `rid.is_valid()`.
* `RenderingServer` calls (`material_set_param`, resource creation/free) have
  no effect on the stored state modelled here; resource creation is recorded
  as `rid_valid := true`.
* Functions that report an engine error via `ERR_FAIL_COND` and return without
  mutating are modelled as returning `none`; a normal return is `some st`.
-/

/-- A color sample; channels are exact rationals (the source computes channel
values such as `float(i + 1) / 255.0` from exact integer inputs). -/
structure Color where
  r : ℚ
  g : ℚ
  b : ℚ
  a : ℚ
deriving DecidableEq

/-- The image pixel formats used by the storage class. -/
inductive ImageFormat where
  | FORMAT_RH
  | FORMAT_RGBA8
  | FORMAT_RG8
deriving DecidableEq

/-- A 2D grid of typed samples, the pixel-grid abstraction consumed by the
storage class. Pixels are a total function; only in-bounds cells are ever
read by the code modelled here. -/
structure Image where
  width : Int
  height : Int
  format : ImageFormat
  pix : Int × Int → Color

/-- Source `Image::create(w, h, false, fmt)`: a zero-initialized grid. -/
def Image.create (w h : Int) (fmt : ImageFormat) : Image :=
  { width := w, height := h, format := fmt, pix := fun _ => ⟨0, 0, 0, 0⟩ }

/-- Source `Image::fill(color)`: every cell set to the given color. -/
def Image.fill (img : Image) (c : Color) : Image :=
  { img with pix := fun _ => c }

/-- Source `Image::set_pixelv(pos, color)`: sets one in-bounds cell; an out-of-bounds
position is an engine error that leaves the image unchanged. -/
def Image.set_pixelv (img : Image) (pos : Int × Int) (c : Color) : Image :=
  if 0 ≤ pos.1 ∧ pos.1 < img.width ∧ 0 ≤ pos.2 ∧ pos.2 < img.height then
    { img with pix := fun q => if q = pos then c else img.pix q }
  else
    img

/-- Source `Terrain3DStorage::Generated`: one dirty-tracked derived GPU resource.
`rid_valid` models `rid.is_valid()`; `image` the cached `Ref<Image>`. -/
structure Generated where
  rid_valid : Bool
  image : Option Image
  dirty : Bool

/-- Source `Generated::clear()`: frees the RID if valid, unrefs the image, resets the
RID and sets `dirty = true`. -/
def Generated.clear (_g : Generated) : Generated :=
  { rid_valid := false, image := none, dirty := true }

/-- Source `Generated::create(const TypedArray<Image> &p_layers)`: on a non-empty
list acquires a layered-texture RID and clears `dirty`; on an empty list it
instead calls `clear()` (which sets `dirty = true`). -/
def Generated.create_layered (g : Generated) (p_layers : List Image) : Generated :=
  if p_layers.isEmpty then g.clear
  else { g with rid_valid := true, dirty := false }

/-- Source `Generated::create(const Ref<Image> &p_image)`: stores the image, acquires
a 2D-texture RID, clears `dirty`. -/
def Generated.create_image (_g : Generated) (p_image : Image) : Generated :=
  { rid_valid := true, image := some p_image, dirty := false }

/-- Source `Generated::is_dirty()`. -/
def Generated.is_dirty (g : Generated) : Bool := g.dirty

/-- A freshly constructed `Generated` member (`rid = RID()`, no image,
`dirty = false`). -/
def Generated.init : Generated :=
  { rid_valid := false, image := none, dirty := false }

/-- The map categories exposed by the storage class. -/
inductive MapType where
  | TYPE_HEIGHT
  | TYPE_CONTROL
  | TYPE_COLOR
  | TYPE_MAX
deriving DecidableEq

/-- One material layer (`TerrainLayerMaterial3D`): only the texture references
read back by `_update_textures` are modelled. -/
structure Layer where
  albedo_texture : Image
  normal_texture : Image

/-- A world position (`Vector3`), coordinates as exact rationals. -/
structure Vec3 where
  x : ℚ
  y : ℚ
  z : ℚ

/-- The `Terrain3DStorage` state: scalar configuration, the persisted lists
(region offsets, height maps, control maps, layers) and the five generated
resource caches. The layer list element type is `Option Layer` because the
source `TypedArray` can hold null refs (`set_layer` appends `p_material`
even when it is null). -/
structure Terrain3DStorage where
  region_size : Int
  max_height : Int
  region_offsets : List (Int × Int)
  height_maps : List Image
  control_maps : List Image
  layers : List (Option Layer)
  generated_region_map : Generated
  generated_height_maps : Generated
  generated_control_maps : Generated
  generated_albedo_textures : Generated
  generated_normal_textures : Generated

/-- Source `region_map_size`: a compile-time constant of the class. -/
def region_map_size : Int := 16

namespace Terrain3DStorage

/-- Source `_get_offset_from(p)`: `floor(p.xz / region_size + (0.5, 0.5))`,
componentwise. -/
def _get_offset_from (st : Terrain3DStorage) (p : Vec3) : Int × Int :=
  (⌊p.x / (st.region_size : ℚ) + 1 / 2⌋, ⌊p.z / (st.region_size : ℚ) + 1 / 2⌋)

/-- The scan loop inside `get_region_index`: index of the first occurrence of
the target offset, `-1` when absent. -/
def find_offset_index (target : Int × Int) : List (Int × Int) → Int
  | [] => -1
  | o :: rest =>
    if o = target then 0
    else
      let r := find_offset_index target rest
      if r = -1 then -1 else r + 1

/-- Source `get_region_index(p)`: slot index of the region whose offset matches
`p`'s grid offset, else `-1`. -/
def get_region_index (st : Terrain3DStorage) (p : Vec3) : Int :=
  find_offset_index (st._get_offset_from p) st.region_offsets

/-- Source `has_region(p)`. -/
def has_region (st : Terrain3DStorage) (p : Vec3) : Bool :=
  st.get_region_index p != -1

/-- Source `get_region_count()`. -/
def get_region_count (st : Terrain3DStorage) : Int :=
  st.region_offsets.length

/-- The region-map build inside `_update_regions`: a
`region_map_size × region_map_size` `FORMAT_RG8` image filled with
`Color(0,0,0,1)`, then for each region `i` at offset `ofs` the cell
`ofs + (region_map_size, region_map_size)/2` is set to
`Color((i+1)/255, 1, 0, 1)`. -/
def build_region_map (offsets : List (Int × Int)) : Image :=
  let base := (Image.create region_map_size region_map_size ImageFormat.FORMAT_RG8).fill
    ⟨0, 0, 0, 1⟩
  (offsets.enum).foldl
    (fun img iofs =>
      img.set_pixelv (iofs.2.1 + region_map_size / 2, iofs.2.2 + region_map_size / 2)
        ⟨((iofs.1 : ℚ) + 1) / 255, 1, 0, 1⟩)
    base

/-- Source `_update_regions()`: rebuilds each of the three map-type caches whose
dirty flag is set (height array, control array, region map), then pushes the
handles to the material (no modelled state). The three branches read and
write disjoint state, so they are modelled as parallel updates. -/
def _update_regions (st : Terrain3DStorage) : Terrain3DStorage :=
  let g_h := if st.generated_height_maps.is_dirty then
      st.generated_height_maps.create_layered st.height_maps
    else st.generated_height_maps
  let g_c := if st.generated_control_maps.is_dirty then
      st.generated_control_maps.create_layered st.control_maps
    else st.generated_control_maps
  let g_r := if st.generated_region_map.is_dirty then
      st.generated_region_map.create_image (build_region_map st.region_offsets)
    else st.generated_region_map
  { st with generated_height_maps := g_h, generated_control_maps := g_c,
            generated_region_map := g_r }

/-- The caches whose rebuild branch fires when `_update_regions` runs on a
given state (the bodies of the three `is_dirty()` guards). -/
inductive RebuiltCache where
  | height
  | control
  | region_map
deriving DecidableEq

/-- Which rebuild branches `_update_regions` would execute on this state. -/
def update_regions_rebuilds (st : Terrain3DStorage) : List RebuiltCache :=
  (if st.generated_height_maps.is_dirty then [RebuiltCache.height] else []) ++
  (if st.generated_control_maps.is_dirty then [RebuiltCache.control] else []) ++
  (if st.generated_region_map.is_dirty then [RebuiltCache.region_map] else [])

/-- Source `add_region(p)` up to (not including) the `_update_regions()` call:
rejects a duplicate offset (`ERR_FAIL_COND(has_region(p))`), else appends a
filled height map, a filled control map and the offset, and clears the
height, control and region-map caches. -/
def add_region_pre (st : Terrain3DStorage) (p : Vec3) : Option Terrain3DStorage :=
  if st.has_region p then none
  else
    let hmap_img := (Image.create st.region_size st.region_size ImageFormat.FORMAT_RH).fill
      ⟨0, 0, 0, 1⟩
    let cmap_img := (Image.create st.region_size st.region_size ImageFormat.FORMAT_RGBA8).fill
      ⟨0, 0, 0, 1⟩
    let uv_offset := st._get_offset_from p
    some { st with
      height_maps := st.height_maps ++ [hmap_img],
      control_maps := st.control_maps ++ [cmap_img],
      region_offsets := st.region_offsets ++ [uv_offset],
      generated_height_maps := st.generated_height_maps.clear,
      generated_control_maps := st.generated_control_maps.clear,
      generated_region_map := st.generated_region_map.clear }

/-- Source `add_region(p)`: the mutation above followed by `_update_regions()`. -/
def add_region (st : Terrain3DStorage) (p : Vec3) : Option Terrain3DStorage :=
  (st.add_region_pre p).map _update_regions

/-- Source `remove_region(p)`: a silent no-op when the region count is exactly one;
an error (`ERR_FAIL_COND_MSG`) when no region exists at `p`; otherwise
removes index `i` from the three lists (`remove_at`, shift-down compaction),
clears the height, control and region-map caches, and runs
`_update_regions()`. -/
def remove_region (st : Terrain3DStorage) (p : Vec3) : Option Terrain3DStorage :=
  if st.get_region_count = 1 then some st
  else
    let index := st.get_region_index p
    if index = -1 then none
    else
      some (_update_regions { st with
        region_offsets := st.region_offsets.eraseIdx index.toNat,
        height_maps := st.height_maps.eraseIdx index.toNat,
        control_maps := st.control_maps.eraseIdx index.toNat,
        generated_height_maps := st.generated_height_maps.clear,
        generated_control_maps := st.generated_control_maps.clear,
        generated_region_map := st.generated_region_map.clear })

/-- Source `set_region_offsets(array)`: replaces the stored offset list. The source
does nothing else here (no cache invalidation, no update pass). -/
def set_region_offsets (st : Terrain3DStorage) (p_array : List (Int × Int)) :
    Terrain3DStorage :=
  { st with region_offsets := p_array }

/-- Source `get_region_offsets()`. -/
def get_region_offsets (st : Terrain3DStorage) : List (Int × Int) :=
  st.region_offsets

/-- Source `get_map(region_index, map_type)`: `TYPE_HEIGHT`/`TYPE_CONTROL` index
into the corresponding list (the source's unchecked `operator[]` is hardened
to an absent value out of range); `TYPE_COLOR`, `TYPE_MAX` and the default
case leave the returned ref null. -/
def get_map (st : Terrain3DStorage) (p_region_index : Int) (p_map_type : MapType) :
    Option Image :=
  match p_map_type with
  | MapType.TYPE_HEIGHT =>
    if 0 ≤ p_region_index then st.height_maps.get? p_region_index.toNat else none
  | MapType.TYPE_CONTROL =>
    if 0 ≤ p_region_index then st.control_maps.get? p_region_index.toNat else none
  | MapType.TYPE_COLOR => none
  | MapType.TYPE_MAX => none

/-- The `switch` at the head of `force_update_maps(map_type)`: clears the
selected map-type caches (`TYPE_MAX` and the default case clear both; the
`TYPE_COLOR` case does nothing). -/
def force_update_mark (st : Terrain3DStorage) (p_map_type : MapType) : Terrain3DStorage :=
  match p_map_type with
  | MapType.TYPE_HEIGHT => { st with generated_height_maps := st.generated_height_maps.clear }
  | MapType.TYPE_CONTROL => { st with generated_control_maps := st.generated_control_maps.clear }
  | MapType.TYPE_COLOR => st
  | MapType.TYPE_MAX =>
    { st with generated_height_maps := st.generated_height_maps.clear,
              generated_control_maps := st.generated_control_maps.clear }

/-- Source `force_update_maps(map_type)`: the marking `switch` immediately followed
by `_update_regions()`. -/
def force_update_maps (st : Terrain3DStorage) (p_map_type : MapType) : Terrain3DStorage :=
  _update_regions (st.force_update_mark p_map_type)

/-- The albedo texture list built inside `_update_textures` (one entry per
layer; dereferencing a null layer is an engine crash in the source, modelled
as an empty placeholder image). -/
def albedo_texture_array (layers : List (Option Layer)) : List Image :=
  layers.map (fun l =>
    match l with
    | some m => m.albedo_texture
    | none => Image.create 0 0 ImageFormat.FORMAT_RGBA8)

/-- The normal texture list built inside `_update_textures`. -/
def normal_texture_array (layers : List (Option Layer)) : List Image :=
  layers.map (fun l =>
    match l with
    | some m => m.normal_texture
    | none => Image.create 0 0 ImageFormat.FORMAT_RGBA8)

/-- Source `_update_textures()`: rebuilds the albedo and normal texture-array caches
whose dirty flag is set from the current layer list. -/
def _update_textures (st : Terrain3DStorage) : Terrain3DStorage :=
  let g_a := if st.generated_albedo_textures.is_dirty then
      st.generated_albedo_textures.create_layered (albedo_texture_array st.layers)
    else st.generated_albedo_textures
  let g_n := if st.generated_normal_textures.is_dirty then
      st.generated_normal_textures.create_layered (normal_texture_array st.layers)
    else st.generated_normal_textures
  { st with generated_albedo_textures := g_a, generated_normal_textures := g_n }

/-- Source `_update_arrays()`: builds local uv-scale/color arrays and emits a change
signal; it mutates none of the modelled state. -/
def _update_arrays (st : Terrain3DStorage) : Terrain3DStorage := st

/-- Source `_update_layers()`: (re)connects layer change signals (outside the
modelled state), then `_update_arrays()` and `_update_textures()`. -/
def _update_layers (st : Terrain3DStorage) : Terrain3DStorage :=
  _update_textures (_update_arrays st)

/-- Source `set_layer(material, index)`: in-bounds null removes the slot
(`remove_at`), in-bounds non-null replaces it, out-of-bounds appends the
argument (null or not); then clears the albedo/normal caches and runs
`_update_layers()`. The C++ index is non-negative at every modelled call. -/
def set_layer (st : Terrain3DStorage) (p_material : Option Layer) (p_index : Nat) :
    Terrain3DStorage :=
  let ls :=
    if p_index < st.layers.length then
      match p_material with
      | none => st.layers.eraseIdx p_index
      | some _ => st.layers.set p_index p_material
    else st.layers ++ [p_material]
  _update_layers { st with
    layers := ls,
    generated_albedo_textures := st.generated_albedo_textures.clear,
    generated_normal_textures := st.generated_normal_textures.clear }

/-- Source `get_layer_count()`. -/
def get_layer_count (st : Terrain3DStorage) : Int :=
  st.layers.length

/-- Source `set_region_size(size)`: `ERR_FAIL_COND(p_size < SIZE_64)` and
`ERR_FAIL_COND(p_size > SIZE_2048)` reject values outside `[64, 2048]`;
any value inside the range is stored (the material-parameter pushes are
outside the modelled state). -/
def set_region_size (st : Terrain3DStorage) (p_size : Int) : Option Terrain3DStorage :=
  if p_size < 64 then none
  else if 2048 < p_size then none
  else some { st with region_size := p_size }

/-- Source `get_region_size()`. -/
def get_region_size (st : Terrain3DStorage) : Int :=
  st.region_size

end Terrain3DStorage

/-! Concrete states used to evaluate the operations on explicit inputs. -/

/-- A small filled image. -/
def img0 : Image := (Image.create 1 1 ImageFormat.FORMAT_RH).fill ⟨0, 0, 0, 1⟩

/-- A concrete material layer. -/
def layer0 : Layer := ⟨img0, img0⟩

/-- A freshly initialized storage: default scalars (`region_size = 1024`,
`max_height = 512`), empty lists, all five caches in their constructed
state. -/
def base_storage : Terrain3DStorage :=
  { region_size := 1024, max_height := 512,
    region_offsets := [], height_maps := [], control_maps := [], layers := [],
    generated_region_map := Generated.init,
    generated_height_maps := Generated.init,
    generated_control_maps := Generated.init,
    generated_albedo_textures := Generated.init,
    generated_normal_textures := Generated.init }

/-- The world origin. -/
def p000 : Vec3 := ⟨0, 0, 0⟩

/-- A storage already holding 255 regions at offsets `(0,0) … (254,0)`. -/
def st255 : Terrain3DStorage :=
  { base_storage with
    region_offsets := (List.range 255).map fun n => ((n : Int), 0),
    height_maps := List.replicate 255 img0,
    control_maps := List.replicate 255 img0 }

/-- A position whose grid offset `(255, 0)` is fresh in `st255`. -/
def p255 : Vec3 := ⟨255 * 1024, 0, 0⟩

/-- A storage already holding 256 layers. -/
def st256L : Terrain3DStorage :=
  { base_storage with layers := List.replicate 256 (some layer0) }

/-- A storage with three regions at offsets `(0,0)`, `(1,0)`, `(2,0)`. -/
def st3 : Terrain3DStorage :=
  { base_storage with
    region_offsets := [(0, 0), (1, 0), (2, 0)],
    height_maps := [img0, img0, img0],
    control_maps := [img0, img0, img0] }

/-- A storage whose height-map list is empty while the height cache is
dirty (reachable, e.g. by `set_height_maps({})`). -/
def stE : Terrain3DStorage :=
  { base_storage with generated_height_maps := ⟨false, none, true⟩ }

/-- A storage with non-empty map lists and all three map caches dirty. -/
def stOK : Terrain3DStorage :=
  { base_storage with
    region_offsets := [(0, 0)],
    height_maps := [img0],
    control_maps := [img0],
    generated_region_map := ⟨false, none, true⟩,
    generated_height_maps := ⟨false, none, true⟩,
    generated_control_maps := ⟨false, none, true⟩ }

/-- A storage with a dirty control cache and non-empty map lists. -/
def stC6 : Terrain3DStorage :=
  { base_storage with
    height_maps := [img0],
    control_maps := [img0],
    generated_control_maps := ⟨false, none, true⟩ }

/-- A storage holding exactly one region. -/
def stW1 : Terrain3DStorage :=
  { base_storage with
    region_offsets := [(0, 0)],
    height_maps := [img0],
    control_maps := [img0] }

/-! Helper lemmas. -/

namespace Terrain3DStorage

/-- Source `_update_regions` never touches the offset list. -/
theorem update_regions_region_offsets (st : Terrain3DStorage) :
    (_update_regions st).region_offsets = st.region_offsets := rfl

/-- Source `_update_regions` never touches the region size. -/
theorem update_regions_region_size (st : Terrain3DStorage) :
    (_update_regions st).region_size = st.region_size := rfl

/-- Source `_update_regions` never touches the height-map list. -/
theorem update_regions_height_maps (st : Terrain3DStorage) :
    (_update_regions st).height_maps = st.height_maps := rfl

/-- Source `_update_regions` never touches the control-map list. -/
theorem update_regions_control_maps (st : Terrain3DStorage) :
    (_update_regions st).control_maps = st.control_maps := rfl

/-- Source `_update_regions` never touches the albedo texture cache. -/
theorem update_regions_albedo (st : Terrain3DStorage) :
    (_update_regions st).generated_albedo_textures = st.generated_albedo_textures := rfl

/-- Source `_update_regions` never touches the normal texture cache. -/
theorem update_regions_normal (st : Terrain3DStorage) :
    (_update_regions st).generated_normal_textures = st.generated_normal_textures := rfl

/-- Source `_update_layers` never touches the layer list. -/
theorem update_layers_layers (st : Terrain3DStorage) :
    (_update_layers st).layers = st.layers := rfl

/-- The region-index scan returns `-1` or a non-negative index. -/
theorem find_offset_index_bounds (t : Int × Int) (l : List (Int × Int)) :
    find_offset_index t l = -1 ∨ 0 ≤ find_offset_index t l := by
  induction l with
  | nil => exact Or.inl rfl
  | cons o rest ih =>
    by_cases ho : o = t
    · right; simp [find_offset_index, ho]
    · rcases ih with h | h
      · left; simp [find_offset_index, ho, h]
      · by_cases hneg : find_offset_index t rest = -1
        · left; simp [find_offset_index, ho, hneg]
        · right; simp [find_offset_index, ho, hneg]; omega

/-- Appending the searched-for offset to a list that does not contain it
makes the scan return the old length. -/
theorem find_offset_index_append_self (t : Int × Int) (l : List (Int × Int))
    (h : find_offset_index t l = -1) :
    find_offset_index t (l ++ [t]) = (l.length : Int) := by
  induction l with
  | nil => simp [find_offset_index]
  | cons o rest ih =>
    by_cases ho : o = t
    · simp [find_offset_index, ho] at h
    · have hrest : find_offset_index t rest = -1 := by
        by_contra hne
        rcases find_offset_index_bounds t rest with hb | hb
        · exact hne hb
        · simp [find_offset_index, ho, hne] at h
          omega
      have hlen := ih hrest
      have hne2 : find_offset_index t (rest ++ [t]) ≠ -1 := by
        rw [hlen]; omega
      have hstep : find_offset_index t (o :: (rest ++ [t])) =
          if o = t then 0
          else if find_offset_index t (rest ++ [t]) = -1 then -1
          else find_offset_index t (rest ++ [t]) + 1 := rfl
      rw [List.cons_append, hstep, if_neg ho, if_neg hne2, hlen, List.length_cons]
      omega

/-- Erasing at index `i` leaves entries strictly before `i` in place. -/
theorem getElem_eraseIdx_of_lt {α : Type} (l : List α) (i j : Nat) (h : j < i) :
    (l.eraseIdx i)[j]? = l[j]? := by
  induction l generalizing i j with
  | nil => simp [List.eraseIdx]
  | cons a rest ih =>
    cases i with
    | zero => omega
    | succ i2 =>
      cases j with
      | zero => simp [List.eraseIdx]
      | succ j2 =>
        simp only [List.eraseIdx, List.getElem?_cons_succ]
        exact ih i2 j2 (by omega)

/-- Erasing at index `i` shifts entries at or after `i` down by one. -/
theorem getElem_eraseIdx_of_ge {α : Type} (l : List α) (i j : Nat) (h : i ≤ j) :
    (l.eraseIdx i)[j]? = l[j + 1]? := by
  induction l generalizing i j with
  | nil => simp [List.eraseIdx]
  | cons a rest ih =>
    cases i with
    | zero => simp [List.eraseIdx]
    | succ i2 =>
      cases j with
      | zero => omega
      | succ j2 =>
        simp only [List.eraseIdx, List.getElem?_cons_succ]
        exact ih i2 j2 (by omega)

/-- The grid offset of the origin in any storage. -/
theorem get_offset_from_origin (st : Terrain3DStorage) :
    st._get_offset_from p000 = (0, 0) := by
  simp only [_get_offset_from, p000]
  norm_num

/-- The origin's region slot in the three-region state `st3`. -/
theorem st3_index_p000 : st3.get_region_index p000 = ((0 : Nat) : Int) := by
  have h : st3._get_offset_from p000 = (0, 0) := get_offset_from_origin st3
  show find_offset_index (st3._get_offset_from p000) st3.region_offsets = ((0 : Nat) : Int)
  rw [h]
  decide

/-! Claim theorems. -/

/-- C7: in a state with exactly one region, `remove_region` at any world
position is a silent no-op: the returned state is the argument state itself,
so the region list, offset list, map lists and every cache's dirty state are
unchanged, and no error is reported. -/
theorem remove_region_floor_noop (st : Terrain3DStorage) (p : Vec3)
    (h : st.region_offsets.length = 1) :
    st.remove_region p = some st := by
  simp [remove_region, get_region_count, h]

/-- Witness for the floor no-op at the concrete one-region state `stW1`. -/
theorem remove_region_floor_noop_witness : stW1.remove_region p000 = some stW1 :=
  remove_region_floor_noop stW1 p000 rfl

/-- C10: for every region index, `get_map` with `TYPE_COLOR` or `TYPE_MAX`
returns an absent image; those branches neither index into the height-map or
control-map lists nor mutate any state (`get_map` is a pure function of the
state). Only the `TYPE_HEIGHT` and `TYPE_CONTROL` branches read a list. -/
theorem get_map_color_max_none : ∀ (st : Terrain3DStorage) (i : Int),
    st.get_map i MapType.TYPE_COLOR = none ∧ st.get_map i MapType.TYPE_MAX = none :=
  fun _ _ => ⟨rfl, rfl⟩

/-- C5 counterexample: `set_region_offsets` replaces the offset list but does
NOT mark the region-map cache dirty — on a state with a clean region-map
cache, the cache is still clean after the list is replaced with different
content. -/
theorem set_region_offsets_no_invalidate_concrete :
    (stW1.set_region_offsets [(5, 7)]).region_offsets = [(5, 7)] ∧
    stW1.region_offsets ≠ [(5, 7)] ∧
    stW1.generated_region_map.dirty = false ∧
    (stW1.set_region_offsets [(5, 7)]).generated_region_map.dirty = false :=
  ⟨rfl, by decide, rfl, rfl⟩

/-- C5 amended: `set_region_offsets(L)` unconditionally replaces the stored
offset list and leaves every cache (region map, height, control, albedo,
normal) and the two map lists untouched — it performs no invalidation. -/
theorem set_region_offsets_spec : ∀ (st : Terrain3DStorage) (L : List (Int × Int)),
    (st.set_region_offsets L).region_offsets = L ∧
    (st.set_region_offsets L).generated_region_map = st.generated_region_map ∧
    (st.set_region_offsets L).generated_height_maps = st.generated_height_maps ∧
    (st.set_region_offsets L).generated_control_maps = st.generated_control_maps ∧
    (st.set_region_offsets L).generated_albedo_textures = st.generated_albedo_textures ∧
    (st.set_region_offsets L).generated_normal_textures = st.generated_normal_textures ∧
    (st.set_region_offsets L).height_maps = st.height_maps ∧
    (st.set_region_offsets L).control_maps = st.control_maps :=
  fun _ _ => ⟨rfl, rfl, rfl, rfl, rfl, rfl, rfl, rfl⟩

/-- C6 counterexample: `force_update_maps(TYPE_HEIGHT)` does not leave the
other caches' dirty state untouched, because the call itself immediately runs
`_update_regions`: on a state whose control cache is dirty (with a non-empty
control-map list), the call flips the control cache's dirty flag to false,
and the height cache also ends clean rather than staying dirty. -/
theorem force_update_height_affects_control_concrete :
    stC6.generated_control_maps.dirty = true ∧
    (stC6.force_update_maps MapType.TYPE_HEIGHT).generated_control_maps.dirty = false ∧
    (stC6.force_update_maps MapType.TYPE_HEIGHT).generated_height_maps.dirty = false :=
  ⟨rfl, rfl, rfl⟩

/-- C6 amended: the marking switch of `force_update_maps(TYPE_HEIGHT)` marks
only the height cache dirty (releasing its handle) and leaves every other
cache unchanged; the call then immediately runs `_update_regions` on the
marked state, which may rebuild any dirty map cache. The albedo and normal
texture caches are unaffected by the whole call. -/
theorem force_update_maps_height_spec : ∀ st : Terrain3DStorage,
    (st.force_update_mark MapType.TYPE_HEIGHT).generated_height_maps.dirty = true ∧
    (st.force_update_mark MapType.TYPE_HEIGHT).generated_height_maps.rid_valid = false ∧
    (st.force_update_mark MapType.TYPE_HEIGHT).generated_control_maps = st.generated_control_maps ∧
    (st.force_update_mark MapType.TYPE_HEIGHT).generated_region_map = st.generated_region_map ∧
    (st.force_update_mark MapType.TYPE_HEIGHT).generated_albedo_textures = st.generated_albedo_textures ∧
    (st.force_update_mark MapType.TYPE_HEIGHT).generated_normal_textures = st.generated_normal_textures ∧
    st.force_update_maps MapType.TYPE_HEIGHT = _update_regions (st.force_update_mark MapType.TYPE_HEIGHT) ∧
    (st.force_update_maps MapType.TYPE_HEIGHT).generated_albedo_textures = st.generated_albedo_textures ∧
    (st.force_update_maps MapType.TYPE_HEIGHT).generated_normal_textures = st.generated_normal_textures :=
  fun _ => ⟨rfl, rfl, rfl, rfl, rfl, rfl, rfl, rfl, rfl⟩

/-- C9 counterexample: `100` is not one of the six allowed sizes, yet
`set_region_size(100)` succeeds and stores `region_size = 100` — the source
checks only the range `[64, 2048]`, not membership in the discrete set. -/
theorem set_region_size_accepts_nonmember :
    (¬(100 = 64 ∨ 100 = 128 ∨ 100 = 256 ∨ 100 = 512 ∨ 100 = 1024 ∨ 100 = 2048)) ∧
    (base_storage.set_region_size 100).map get_region_size = some 100 :=
  ⟨by decide, rfl⟩

/-- C9 amended: `set_region_size(s)` fails (reports an error and leaves the
state unchanged) exactly when `s < 64` or `s > 2048`; every `s` in
`[64, 2048]` — member of the discrete set or not — is accepted and stored,
with all other state unchanged. -/
theorem set_region_size_range_spec : ∀ (st : Terrain3DStorage) (s : Int),
    ((s < 64 ∨ 2048 < s) → st.set_region_size s = none) ∧
    (64 ≤ s → s ≤ 2048 → ∃ st2, st.set_region_size s = some st2 ∧
      st2.region_size = s ∧
      st2.region_offsets = st.region_offsets ∧
      st2.height_maps = st.height_maps ∧
      st2.control_maps = st.control_maps ∧
      st2.generated_region_map = st.generated_region_map ∧
      st2.generated_height_maps = st.generated_height_maps ∧
      st2.generated_control_maps = st.generated_control_maps) := by
  intro st s
  constructor
  · intro hs
    rcases hs with hs | hs
    · simp [set_region_size, hs]
    · have hx : ¬s < 64 := by omega
      simp [set_region_size, hx, hs]
  · intro h1 h2
    have hx1 : ¬s < 64 := by omega
    have hx2 : ¬2048 < s := by omega
    exact ⟨{ st with region_size := s }, by simp [set_region_size, hx1, hx2],
      rfl, rfl, rfl, rfl, rfl, rfl, rfl⟩

/-- Witness: `set_region_size` rejects `50` and accepts `256` on the
concrete base state. -/
theorem set_region_size_range_spec_witness :
    base_storage.set_region_size 50 = none ∧
    (∃ st2, base_storage.set_region_size 256 = some st2 ∧
      st2.region_size = 256 ∧
      st2.region_offsets = base_storage.region_offsets ∧
      st2.height_maps = base_storage.height_maps ∧
      st2.control_maps = base_storage.control_maps ∧
      st2.generated_region_map = base_storage.generated_region_map ∧
      st2.generated_height_maps = base_storage.generated_height_maps ∧
      st2.generated_control_maps = base_storage.generated_control_maps) :=
  ⟨(set_region_size_range_spec base_storage 50).1 (Or.inl (by decide)),
   (set_region_size_range_spec base_storage 256).2 (by decide) (by decide)⟩

/-- C4 counterexample: on a state whose height-map list is empty and whose
height cache is dirty, the first `_update_regions` pass rebuilds the height
cache, but rebuilding from the empty list runs `clear()` which sets the dirty
flag again — so the second pass re-enters the same rebuild branch instead of
performing no rebuild. -/
theorem update_regions_empty_list_rebuild :
    update_regions_rebuilds stE = [RebuiltCache.height] ∧
    update_regions_rebuilds (_update_regions stE) = [RebuiltCache.height] :=
  ⟨rfl, rfl⟩

/-- C4 amended: provided the height-map and control-map source lists are
non-empty, one `_update_regions` pass leaves all three map caches clean, so a
second pass with no intervening mutation executes no rebuild branch. (With an
empty source list the corresponding cache stays dirty after the build, and
every subsequent pass re-enters its rebuild branch.) -/
theorem update_regions_idempotent (st : Terrain3DStorage)
    (hh : st.height_maps ≠ []) (hc : st.control_maps ≠ []) :
    update_regions_rebuilds (_update_regions st) = [] := by
  have h1 : st.height_maps.isEmpty = false := by
    cases hst : st.height_maps with
    | nil => exact absurd hst hh
    | cons a l => rfl
  have h2 : st.control_maps.isEmpty = false := by
    cases hst : st.control_maps with
    | nil => exact absurd hst hc
    | cons a l => rfl
  cases hd : st.generated_height_maps.dirty <;>
  cases cd : st.generated_control_maps.dirty <;>
  cases rd : st.generated_region_map.dirty <;>
    simp [update_regions_rebuilds, _update_regions, Generated.is_dirty,
      Generated.create_layered, Generated.create_image, Generated.clear, h1, h2, hd, cd, rd]

/-- Witness: after one pass on the concrete all-dirty state `stOK`, a second
pass performs no rebuild. -/
theorem update_regions_idempotent_witness :
    update_regions_rebuilds (_update_regions stOK) = [] :=
  update_regions_idempotent stOK (List.cons_ne_nil _ _) (List.cons_ne_nil _ _)

/-- C3: when no region exists at `p`'s grid offset, `add_region(p)` succeeds;
during the call the height, control and region-map caches are invalidated
(dirty set, handle released) before `_update_regions` runs, and in the
returned state `has_region(p)` holds, `get_region_index(p)` equals the old
region count (= new count − 1), and the region count grew by one. -/
theorem add_region_spec (st : Terrain3DStorage) (p : Vec3)
    (h : st.get_region_index p = -1) :
    ∃ stm, st.add_region_pre p = some stm ∧
      stm.generated_height_maps.dirty = true ∧
      stm.generated_height_maps.rid_valid = false ∧
      stm.generated_control_maps.dirty = true ∧
      stm.generated_control_maps.rid_valid = false ∧
      stm.generated_region_map.dirty = true ∧
      stm.generated_region_map.rid_valid = false ∧
      st.add_region p = some (_update_regions stm) ∧
      (_update_regions stm).has_region p = true ∧
      (_update_regions stm).get_region_index p = (st.region_offsets.length : Int) ∧
      (_update_regions stm).region_offsets.length = st.region_offsets.length + 1 := by
  have hhas : st.has_region p = false := by simp [has_region, h]
  have happ : find_offset_index (st._get_offset_from p)
      (st.region_offsets ++ [st._get_offset_from p]) = (st.region_offsets.length : Int) :=
    find_offset_index_append_self _ _ h
  refine ⟨{ st with
      height_maps := st.height_maps ++
        [(Image.create st.region_size st.region_size ImageFormat.FORMAT_RH).fill ⟨0, 0, 0, 1⟩],
      control_maps := st.control_maps ++
        [(Image.create st.region_size st.region_size ImageFormat.FORMAT_RGBA8).fill ⟨0, 0, 0, 1⟩],
      region_offsets := st.region_offsets ++ [st._get_offset_from p],
      generated_height_maps := st.generated_height_maps.clear,
      generated_control_maps := st.generated_control_maps.clear,
      generated_region_map := st.generated_region_map.clear },
    ?_, rfl, rfl, rfl, rfl, rfl, rfl, ?_, ?_, ?_, ?_⟩
  · simp [add_region_pre, hhas]
  · simp [add_region, add_region_pre, hhas]
  · show (find_offset_index (st._get_offset_from p)
      (st.region_offsets ++ [st._get_offset_from p]) != -1) = true
    rw [happ]
    have hx : (st.region_offsets.length : Int) ≠ -1 := by omega
    simp [hx]
  · exact happ
  · rw [update_regions_region_offsets]
    simp

/-- Witness: adding a region at the origin to the empty base storage. -/
theorem add_region_spec_witness :
    ∃ stm, base_storage.add_region_pre p000 = some stm ∧
      stm.generated_height_maps.dirty = true ∧
      stm.generated_height_maps.rid_valid = false ∧
      stm.generated_control_maps.dirty = true ∧
      stm.generated_control_maps.rid_valid = false ∧
      stm.generated_region_map.dirty = true ∧
      stm.generated_region_map.rid_valid = false ∧
      base_storage.add_region p000 = some (_update_regions stm) ∧
      (_update_regions stm).has_region p000 = true ∧
      (_update_regions stm).get_region_index p000 = (base_storage.region_offsets.length : Int) ∧
      (_update_regions stm).region_offsets.length = base_storage.region_offsets.length + 1 :=
  add_region_spec base_storage p000 rfl

set_option maxRecDepth 8000 in
/-- C1 counterexample: neither capacity bound is enforced. Adding a region to
a state that already holds 255 regions succeeds and raises the count to 256
(no error, no rejection), and `set_layer` at index 256 of a 256-layer state
appends a 257th layer. -/
theorem capacity_overflow_concrete :
    st255.region_offsets.length = 255 ∧
    (∃ st2, st255.add_region p255 = some st2 ∧ st2.region_offsets.length = 256) ∧
    st256L.layers.length = 256 ∧
    (st256L.set_layer (some layer0) 256).layers.length = 257 := by
  have hlen : st255.region_offsets.length = 255 := by decide
  have hlay : st256L.layers.length = 256 := by decide
  refine ⟨hlen, ?_, hlay, ?_⟩
  · have hofs : st255._get_offset_from p255 = (255, 0) := by
      simp only [_get_offset_from, p255, st255, base_storage]
      norm_num
    have hfind : find_offset_index (255, 0) st255.region_offsets = -1 := by decide
    have hhas : st255.has_region p255 = false := by
      simp [has_region, get_region_index, hofs, hfind]
    refine ⟨_update_regions { st255 with
        height_maps := st255.height_maps ++
          [(Image.create st255.region_size st255.region_size ImageFormat.FORMAT_RH).fill
            ⟨0, 0, 0, 1⟩],
        control_maps := st255.control_maps ++
          [(Image.create st255.region_size st255.region_size ImageFormat.FORMAT_RGBA8).fill
            ⟨0, 0, 0, 1⟩],
        region_offsets := st255.region_offsets ++ [st255._get_offset_from p255],
        generated_height_maps := st255.generated_height_maps.clear,
        generated_control_maps := st255.generated_control_maps.clear,
        generated_region_map := st255.generated_region_map.clear }, ?_, ?_⟩
    · simp [add_region, add_region_pre, hhas]
    · rw [update_regions_region_offsets]
      simp [hlen]
  · have hnlt : ¬(256 < st256L.layers.length) := by rw [hlay]; omega
    simp only [set_layer, hnlt, if_false, update_layers_layers]
    simp [List.length_append, hlay]

/-- C1 amended: no capacity limit exists. `add_region` succeeds at every
state whose offset for `p` is fresh — whatever the current region count, so
the count can silently exceed 255 — and `set_layer` at an out-of-range index
always appends — whatever the current layer count, so it can silently exceed
256. -/
theorem add_and_set_layer_unbounded :
    (∀ (st : Terrain3DStorage) (p : Vec3), st.get_region_index p = -1 →
      ∃ st2, st.add_region p = some st2 ∧
        st2.region_offsets.length = st.region_offsets.length + 1) ∧
    (∀ (st : Terrain3DStorage) (m : Option Layer) (i : Nat), st.layers.length ≤ i →
      (st.set_layer m i).layers.length = st.layers.length + 1) := by
  constructor
  · intro st p h
    have hhas : st.has_region p = false := by simp [has_region, h]
    refine ⟨_update_regions { st with
        height_maps := st.height_maps ++
          [(Image.create st.region_size st.region_size ImageFormat.FORMAT_RH).fill ⟨0, 0, 0, 1⟩],
        control_maps := st.control_maps ++
          [(Image.create st.region_size st.region_size ImageFormat.FORMAT_RGBA8).fill ⟨0, 0, 0, 1⟩],
        region_offsets := st.region_offsets ++ [st._get_offset_from p],
        generated_height_maps := st.generated_height_maps.clear,
        generated_control_maps := st.generated_control_maps.clear,
        generated_region_map := st.generated_region_map.clear }, ?_, ?_⟩
    · simp [add_region, add_region_pre, hhas]
    · rw [update_regions_region_offsets]
      simp
  · intro st m i hle
    have hnlt : ¬i < st.layers.length := by omega
    simp only [set_layer, hnlt, if_false, update_layers_layers]
    simp

set_option maxRecDepth 8000 in
/-- Witness: one add at the origin on the empty base state, and one append
at index 256 of the 256-layer state. -/
theorem add_and_set_layer_unbounded_witness :
    (∃ st2, base_storage.add_region p000 = some st2 ∧
      st2.region_offsets.length = base_storage.region_offsets.length + 1) ∧
    (st256L.set_layer (some layer0) 256).layers.length = st256L.layers.length + 1 :=
  ⟨add_and_set_layer_unbounded.1 base_storage p000 rfl,
   add_and_set_layer_unbounded.2 st256L (some layer0) 256 (by decide)⟩

/-- C2 counterexample: removal is shift-down compaction, not swap-with-last.
In the three-region state the origin's region sits at index `0 < 3 - 1`;
after `remove_region` the list has length 2 but index `0` holds the region
formerly at index `1` — `(1,0)` — and not the region formerly at the last
index — `(2,0)`. -/
theorem remove_region_not_swap_concrete :
    st3.get_region_index p000 = 0 ∧
    st3.region_offsets.length = 3 ∧
    st3.region_offsets[2]? = some (2, 0) ∧
    (∃ st2, st3.remove_region p000 = some st2 ∧
      st2.region_offsets = [(1, 0), (2, 0)] ∧
      st2.region_offsets[0]? = some (1, 0)) ∧
    ((1, 0) : Int × Int) ≠ (2, 0) := by
  refine ⟨st3_index_p000, by decide, by decide, ?_, by decide⟩
  have hcount : ¬st3.get_region_count = 1 := by decide
  refine ⟨_update_regions { st3 with
      region_offsets := st3.region_offsets.eraseIdx 0,
      height_maps := st3.height_maps.eraseIdx 0,
      control_maps := st3.control_maps.eraseIdx 0,
      generated_height_maps := st3.generated_height_maps.clear,
      generated_control_maps := st3.generated_control_maps.clear,
      generated_region_map := st3.generated_region_map.clear }, ?_, by decide, by decide⟩
  simp [remove_region, st3_index_p000, hcount]

/-- C2 amended: removing the region at index `i < n-1` yields a list of
length `n-1` in which every region before `i` keeps its index, every region
after `i` shifts down by one slot (so the region formerly at `j > i` now
occupies `j-1`, and the formerly-last region ends at `n-2`, not at `i`), and
all relative orderings are preserved. -/
theorem remove_region_compaction (st : Terrain3DStorage) (p : Vec3) (i : Nat)
    (hidx : st.get_region_index p = (i : Int))
    (hn : 1 < st.region_offsets.length)
    (hi : i < st.region_offsets.length - 1) :
    ∃ st2, st.remove_region p = some st2 ∧
      st2.region_offsets.length = st.region_offsets.length - 1 ∧
      (∀ j : Nat, j < i → st2.region_offsets[j]? = st.region_offsets[j]?) ∧
      (∀ j : Nat, i ≤ j → st2.region_offsets[j]? = st.region_offsets[j + 1]?) := by
  have hcount : ¬st.get_region_count = 1 := by
    simp only [get_region_count]
    omega
  have hne : ¬st.get_region_index p = -1 := by rw [hidx]; omega
  have htn : (st.get_region_index p).toNat = i := by rw [hidx]; exact Int.toNat_natCast i
  refine ⟨_update_regions { st with
      region_offsets := st.region_offsets.eraseIdx (st.get_region_index p).toNat,
      height_maps := st.height_maps.eraseIdx (st.get_region_index p).toNat,
      control_maps := st.control_maps.eraseIdx (st.get_region_index p).toNat,
      generated_height_maps := st.generated_height_maps.clear,
      generated_control_maps := st.generated_control_maps.clear,
      generated_region_map := st.generated_region_map.clear }, ?_, ?_, ?_, ?_⟩
  · simp [remove_region, hcount, hne]
  · show (st.region_offsets.eraseIdx (st.get_region_index p).toNat).length =
      st.region_offsets.length - 1
    rw [htn, List.length_eraseIdx]
    simp [show i < st.region_offsets.length by omega]
  · intro j hj
    show (st.region_offsets.eraseIdx (st.get_region_index p).toNat)[j]? =
      st.region_offsets[j]?
    rw [htn]
    exact getElem_eraseIdx_of_lt st.region_offsets i j hj
  · intro j hj
    show (st.region_offsets.eraseIdx (st.get_region_index p).toNat)[j]? =
      st.region_offsets[j + 1]?
    rw [htn]
    exact getElem_eraseIdx_of_ge st.region_offsets i j hj

/-- Witness: compaction at index 0 of the concrete three-region state. -/
theorem remove_region_compaction_witness :
    ∃ st2, st3.remove_region p000 = some st2 ∧
      st2.region_offsets.length = st3.region_offsets.length - 1 ∧
      (∀ j : Nat, j < 0 → st2.region_offsets[j]? = st3.region_offsets[j]?) ∧
      (∀ j : Nat, 0 ≤ j → st2.region_offsets[j]? = st3.region_offsets[j + 1]?) :=
  remove_region_compaction st3 p000 0 st3_index_p000 (by decide) (by decide)

/-- C8: the region-map encoder, with `region_map_size = 16`, maps a single
region at offset `(0,0)` to cell `(8,8)` holding red `(0+1)/255` and the
constant weight `1` in green; every other in-bounds cell holds zero in both
stored channels, and an empty region list yields an all-zero grid. -/
theorem region_map_encoding_spec :
    ((build_region_map [(0, 0)]).pix (8, 8)).r = 1 / 255 ∧
    ((build_region_map [(0, 0)]).pix (8, 8)).g = 1 ∧
    (∀ x y : Int, 0 ≤ x → x < 16 → 0 ≤ y → y < 16 → (x, y) ≠ ((8 : Int), (8 : Int)) →
      ((build_region_map [(0, 0)]).pix (x, y)).r = 0 ∧
      ((build_region_map [(0, 0)]).pix (x, y)).g = 0) ∧
    (∀ q : Int × Int, ((build_region_map []).pix q).r = 0 ∧
      ((build_region_map []).pix q).g = 0) := by
  have hb : build_region_map [(0, 0)] =
      ((Image.create region_map_size region_map_size ImageFormat.FORMAT_RG8).fill
        ⟨0, 0, 0, 1⟩).set_pixelv (8, 8) ⟨((0 : ℚ) + 1) / 255, 1, 0, 1⟩ := rfl
  have hin : ((0 : Int) ≤ 8 ∧ (8 : Int) < 16 ∧ (0 : Int) ≤ 8 ∧ (8 : Int) < 16) := by decide
  refine ⟨?_, ?_, ?_, fun q => ⟨rfl, rfl⟩⟩
  · rw [hb]
    show (if ((8 : Int), (8 : Int)) = (8, 8) then
        (⟨((0 : ℚ) + 1) / 255, 1, 0, 1⟩ : Color) else ⟨0, 0, 0, 1⟩).r = 1 / 255
    norm_num
  · rw [hb]
    show (if ((8 : Int), (8 : Int)) = (8, 8) then
        (⟨((0 : ℚ) + 1) / 255, 1, 0, 1⟩ : Color) else ⟨0, 0, 0, 1⟩).g = 1
    norm_num
  · intro x y hx0 hx1 hy0 hy1 hne
    rw [hb]
    show (if (x, y) = ((8 : Int), (8 : Int)) then
        (⟨((0 : ℚ) + 1) / 255, 1, 0, 1⟩ : Color) else ⟨0, 0, 0, 1⟩).r = 0 ∧
      (if (x, y) = ((8 : Int), (8 : Int)) then
        (⟨((0 : ℚ) + 1) / 255, 1, 0, 1⟩ : Color) else ⟨0, 0, 0, 1⟩).g = 0
    rw [if_neg hne]
    exact ⟨rfl, rfl⟩

/-- Witness: the off-center cell `(3,5)` of the single-region map and the
cell `(2,2)` of the empty map are zero. -/
theorem region_map_encoding_spec_witness :
    ((build_region_map [(0, 0)]).pix (3, 5)).r = 0 ∧
    ((build_region_map []).pix (2, 2)).g = 0 :=
  ⟨(region_map_encoding_spec.2.2.1 3 5 (by decide) (by decide) (by decide) (by decide)
      (by decide)).1,
   (region_map_encoding_spec.2.2.2 (2, 2)).2⟩

end Terrain3DStorage
